import Mathlib

set_option maxRecDepth 40000

deriving instance DecidableEq for Except

/-!
Verification development for the `vawk` preprocessor (src/vawk.py).

The program is a single-file Python script.  We give a shallow embedding of
its pure core — segment extraction (`parse`, lines 92-147), the sample token
class (`Sample`, lines 151-184), the reference scanners, code generation and
assembly inside `vawk` (lines 188-396), and the output/exit behaviour of the
execution adapter (lines 398-428) — as executable Lean definitions over
`List Char`, and prove the frozen claims about them.

Modelling conventions:
- Python `str` values are `Str := List Char`; `bytes` values are also `Str`
  (one `Char` per byte, all inputs of interest being ASCII).
- Python regular expressions used by the script are fixed concrete patterns;
  each is embedded as a dedicated scanner over `List Char` with `re`'s
  left-to-right, non-overlapping match semantics.  Character classes are
  modelled at ASCII scope (`\w` = `[a-zA-Z0-9_]`, `\s` = ASCII whitespace),
  which covers every string the script itself generates and the witnesses.
- `set(...)` results are modelled as duplicate-free lists in first-scan
  order; no proved statement depends on the enumeration order.
- Python's `exit(1)` / uncaught exceptions are modelled by `Except`.
-/

/-- Python strings (and byte strings) are modelled as lists of characters. -/

abbrev Str := List Char

/-- ASCII whitespace, the character set of Python's `str.strip()` /
`bytes.rstrip()` with no arguments and of the regex class `\s`. -/

def isSpace (c : Char) : Bool :=
  c = ' ' || c = '\t' || c = '\n' || c = '\r' || c = '\x0b' || c = '\x0c'

/-- Regex class `\w` at ASCII scope: `[a-zA-Z0-9_]`. -/

def isWordChar (c : Char) : Bool :=
  c.isAlphanum || c = '_'

/-- Python `s.strip()`: remove leading and trailing whitespace. -/

def pyStrip (s : Str) : Str :=
  ((s.dropWhile isSpace).reverse.dropWhile isSpace).reverse

/-- Python slice `s[1:-1]`: drop the first and the last character. -/

def pyDrop1both (s : Str) : Str :=
  (s.drop 1).dropLast

/-- Python slice `s[a:b]` (for `a ≤ b ≤ len s`, the only uses below). -/

def sliceTake (s : Str) (a b : Nat) : Str :=
  (s.drop a).take (b - a)

/-- Python `s.split(sep)` for a single-character separator `sep`
(`str.split` with a non-empty separator; the result is always non-empty). -/

def splitOnChar (sep : Char) : Str → List Str
  | [] => [[]]
  | c :: cs =>
    let r := splitOnChar sep cs
    if c = sep then [] :: r
    else
      match r with
      | h :: t => (c :: h) :: t
      | [] => [[c]]

/-- Decimal rendering of a natural number, digit characters only;
structurally recursive on a fuel argument so that it evaluates inside the
kernel (the fuel `n + 1` always suffices since `n` has at most `n + 1`
digits). -/

def natToStrGo : Nat → Nat → Str → Str
  | 0, _, acc => acc
  | fuel + 1, n, acc =>
    if n = 0 then acc
    else natToStrGo fuel (n / 10) (Char.ofNat (48 + n % 10) :: acc)

/-- Python `str(n)` for a natural number. -/

def natToStr (n : Nat) : Str :=
  if n = 0 then ['0'] else natToStrGo (n + 1) n []

/-- Does `needle` occur as a contiguous segment of `hay`? (Bool scanner.) -/

def occursB (needle : Str) : Str → Bool
  | [] => needle.isEmpty
  | c :: cs => needle.isPrefixOf (c :: cs) || occursB needle cs

/-- Index of the first occurrence of `needle` in `hay`, if any. -/

def firstIdx (needle : Str) : Str → Option Nat
  | [] => if needle.isEmpty then some 0 else none
  | c :: cs =>
    if needle.isPrefixOf (c :: cs) then some 0
    else (firstIdx needle cs).map (· + 1)

/-- Strict comparison on optional indices: both present and first smaller. -/

def optLt : Option Nat → Option Nat → Bool
  | some a, some b => a < b
  | _, _ => false

/-!
Segment extraction (src/vawk.py lines 92-147, `parse`).
-/

/-- The Python exceptions the embedded code can raise. `indexError` is the
`IndexError` raised by `raw[b]` when the brace scan in `parse` runs past the
end of the string (src/vawk.py lines 107-115 / 126-135). -/

inductive PyErr where
  | indexError
deriving DecidableEq, Repr

/-- Does the regex `KW\s*{` match at the very start of `s` (for the literal
keyword `kw`)?  Since `{` is not whitespace, the greedy `\s*` is equivalent
to skipping the maximal whitespace run after the keyword. -/

def kwBraceAt (kw : Str) (s : Str) : Bool :=
  kw.isPrefixOf s &&
    (match (s.drop kw.length).dropWhile isSpace with
     | c :: _ => c = '\x7b'
     | [] => false)

/-- Python `re.search(r"KW\s*{", s).start()`: index of the leftmost match. -/

def reSearchKwBrace (kw : Str) : Str → Option Nat
  | [] => if kwBraceAt kw [] then some 0 else none
  | c :: cs =>
    if kwBraceAt kw (c :: cs) then some 0
    else (reSearchKwBrace kw cs).map (· + 1)

/-- The brace-counting scan of `parse` (the `while` loops at src/vawk.py
lines 107-115 and 126-135): starting with counter `op`, return the index of
the character at which the counter, incremented at each `{` and decremented
at each `}`, reaches zero on a `}`.  Every character is counted literally —
quoted string literals are not recognised.  `none` models the scan reaching
the end of the string, where Python raises `IndexError`. -/

def findClose : Str → Int → Option Nat
  | [], _ => none
  | c :: cs, op =>
    if c = '\x7b' then (findClose cs (op + 1)).map (· + 1)
    else if c = '\x7d' then
      if op - 1 = 0 then some 0 else (findClose cs (op - 1)).map (· + 1)
    else (findClose cs op).map (· + 1)

/-- One block extraction of `parse`: locate `kw\s*{`, scan for the balancing
`}`, and return the block body (`raw[a:b+1].strip()[1:-1]`) together with
the input with the whole span removed (`raw[:start] + raw[b+1:]`).  When the
keyword does not occur the body is empty and the input is unchanged
(src/vawk.py: the `except AttributeError: pass` path with `idx = [0,-1]`). -/

def extractBlock (kw : Str) (raw : Str) : Except PyErr (Str × Str) :=
  match reSearchKwBrace kw raw with
  | none => .ok ([], raw)
  | some start =>
    let a := start + kw.length
    match findClose (raw.drop a) 0 with
    | none => .error .indexError
    | some r =>
      let b := a + r
      .ok (pyDrop1both (pyStrip (sliceTake raw a (b + 1))),
           raw.take start ++ raw.drop (b + 1))

/-- `parse` (src/vawk.py lines 92-147): split the raw vawk string into the
`BEGIN` body, the per-line body, and the `END` body.  The per-line segment
is the stripped remainder; a leading-and-trailing brace pair is stripped,
otherwise the remainder is wrapped as `if (...) print ; `. -/

def parse (raw : Str) : Except PyErr (Str × Str × Str) :=
  match extractBlock ("BEGIN".data) raw with
  | .error e => .error e
  | .ok (bgn, raw1) =>
    match extractBlock ("END".data) raw1 with
    | .error e => .error e
    | .ok (fin, raw2) =>
      let t := pyStrip raw2
      let pl := if t.head? = some '\x7b' ∧ t.getLast? = some '\x7d'
                then pyDrop1both t
                else ("if (".data) ++ t ++ (") print ; ".data)
      .ok (bgn, pl, fin)

/-!
Field reference scanners (src/vawk.py lines 208 and 241).
-/

/-- Fueled scanner for `re.findall(r"[\W]I\$([\w]*)", s)` (src/vawk.py
line 208): all non-overlapping matches, left to right, of a non-word
character followed by `I$` and a (possibly empty) run of word characters;
the captured key runs are returned in match order, duplicates included.
Every step consumes at least one character, so fuel = length suffices. -/

def infoFindAllGo : Nat → Str → List Str
  | 0, _ => []
  | fuel + 1, s =>
    match s with
    | [] => []
    | c :: rest =>
      if !isWordChar c && (("I$".data).isPrefixOf rest) then
        ((rest.drop 2).takeWhile isWordChar)
          :: infoFindAllGo fuel ((rest.drop 2).dropWhile isWordChar)
      else infoFindAllGo fuel rest

/-- Python `re.findall(r"[\W]I\$([\w]*)", s)` (src/vawk.py line 208). -/

def infoFindAll (s : Str) : List Str := infoFindAllGo s.length s

/-- The character class `[a-zA-Z0-9_\-\.*^$]` of the sample-reference
scanner (src/vawk.py line 241). -/

def isSampTokChar (c : Char) : Bool :=
  c.isAlphanum || c = '_' || c = '-' || c = '.' || c = '*' || c = '^' || c = '$'

/-- Fueled scanner for `re.findall(r"[\W]S\$([a-zA-Z0-9_\-\.*^$]*)", s)`
(src/vawk.py line 241), with the same conventions as `infoFindAllGo`. -/

def sampFindAllGo : Nat → Str → List Str
  | 0, _ => []
  | fuel + 1, s =>
    match s with
    | [] => []
    | c :: rest =>
      if !isWordChar c && (("S$".data).isPrefixOf rest) then
        ((rest.drop 2).takeWhile isSampTokChar)
          :: sampFindAllGo fuel ((rest.drop 2).dropWhile isSampTokChar)
      else sampFindAllGo fuel rest

/-- Python `re.findall(r"[\W]S\$([a-zA-Z0-9_\-\.*^$]*)", s)` (src/vawk.py
line 241). -/

def sampFindAll (s : Str) : List Str := sampFindAllGo s.length s

/-- The distinct annotation keys of the per-line text, in first-scan order
(`set(re.findall(...))` at src/vawk.py line 208, modelled as a
duplicate-free list). -/

def infoKeysOf (p : Str) : List Str := (infoFindAll p).eraseDups

/-- Python `re.search(r"I\$([^\W]*)", s)` as a Bool (src/vawk.py line 210).
Since the captured group may be empty, the pattern matches exactly when
`I$` occurs somewhere in `s`. -/

def hasInfoRef (p : Str) : Bool := occursB ("I$".data) p

/-- The distinct sample-reference tokens of the per-line text, in
first-scan order (`set(re.findall(...))` at src/vawk.py line 241). -/

def sampleToksOf (p : Str) : List Str := (sampFindAll p).eraseDups

/-!
The `Sample` class (src/vawk.py lines 151-184).
-/

/-- The data of a `Sample` object after `__init__` (src/vawk.py 152-169):
the raw token, the text before the first `$`, and the requested subfield
(the sentinel string `ALL` when the token has no `$`). -/

structure SampleQ where
  string_raw : Str
  name_raw : Str
  field : Str
deriving DecidableEq, Repr

/-- `Sample.clean` name sanitisation (src/vawk.py 172-184): hyphen and
period become underscore. -/

def nameClean (n : Str) : Str :=
  n.map (fun c => if c = '-' || c = '.' then '_' else c)

/-- `Sample.clean` pattern escaping (src/vawk.py 172-184): a backslash is
inserted before every hyphen and period. -/

def nameEscaped (n : Str) : Str :=
  n.foldr (fun c acc => if c = '-' || c = '.' then '\\' :: c :: acc else c :: acc) []

/-- `Sample.__init__` (src/vawk.py 152-169): split the token on `$`; one
piece gives a whole-record reference (`field = "ALL"`), two pieces give a
subfield reference, any more prints an error and calls `exit(1)` (modelled
as `.error 1`, the process exit status). -/

def sampleInit (s : Str) : Except Nat SampleQ :=
  match splitOnChar '$' s with
  | [n] => .ok ⟨s, n, ("ALL".data)⟩
  | [n, f] => .ok ⟨s, n, f⟩
  | _ => .error 1

/-- The loop at src/vawk.py 243-248 building a `Sample` object per scanned
token; the first invalid token terminates the process (exit status 1). -/

def sampleInitAll : List Str → Except Nat (List SampleQ)
  | [] => .ok []
  | t :: ts =>
    match sampleInit t with
    | .error n => .error n
    | .ok q =>
      match sampleInitAll ts with
      | .error n => .error n
      | .ok qs => .ok (q :: qs)

/-!
Literal substitution with optional negative look-ahead.  Every `re.sub` in
the script substitutes a concrete literal pattern (the only regex
metacharacters being the escaped `\$`, `\-`, `\.`, `\*` and the trailing
look-ahead group), so each is embedded as a left-to-right, non-overlapping
literal replacement, optionally guarded by a one-character look-ahead.
-/

/-- The negative look-ahead `(?![$_\-\.a-zA-Z0-9])` of the rename pass
(src/vawk.py line 322): characters that must NOT follow a match. -/

def laPred (c : Char) : Bool :=
  c = '$' || c = '_' || c = '-' || c = '.' || c.isAlphanum

/-- The always-false look-ahead: plain literal substitution with no guard
(the annotation-reference substitution at src/vawk.py line 237 has no
look-ahead group). -/

def noLA : Char → Bool := fun _ => false

/-- Does the look-ahead succeed on the text following a match?  A negative
look-ahead succeeds at end of string. -/

def laOk (bad : Char → Bool) : Str → Bool
  | [] => true
  | d :: _ => !(bad d)

/-- Fueled engine of `re.sub(lit + lookahead, repl, s)` for a literal
pattern `lit`: scan left to right; at each position, if `lit` matches there
and the character after the match (if any) is not in `bad`, emit `repl` and
resume after the match; otherwise keep the character and advance by one.
A matched (non-empty) pattern consumes at least one character, so
fuel = length suffices, and the fuel-exhausted branch is never taken. -/

def subLAGo (lit : Str) (bad : Char → Bool) (repl : Str) : Nat → Str → Str
  | _, [] => []
  | 0, s => s
  | fuel + 1, c :: cs =>
    if !lit.isEmpty && lit.isPrefixOf (c :: cs)
        && laOk bad (List.drop lit.length (c :: cs)) then
      repl ++ subLAGo lit bad repl fuel (List.drop lit.length (c :: cs))
    else
      c :: subLAGo lit bad repl fuel cs

/-- `re.sub(lit + lookahead, repl, s)` for a literal pattern `lit`. -/

def subLA (lit : Str) (bad : Char → Bool) (repl : Str) (s : Str) : Str :=
  subLAGo lit bad repl s.length s

/-- Does `subLA` fire at least once on `s`?  (The same guard as `subLA`,
scanned over every position.) -/

def hasMatchLA (lit : Str) (bad : Char → Bool) : Str → Bool
  | [] => false
  | c :: cs =>
    (!lit.isEmpty && lit.isPrefixOf (c :: cs)
      && laOk bad (List.drop lit.length (c :: cs)))
    || hasMatchLA lit bad cs

/-!
Annotation code generation (src/vawk.py lines 210-237).
-/

/-- Python `" ".join(pieces)`. -/

def joinSep (sep : Str) : List Str → Str
  | [] => []
  | [x] => x
  | x :: y :: t => x ++ sep ++ joinSep sep (y :: t)

/-- The per-key match clause of the annotation prologue (the list
comprehension at src/vawk.py 219-230). -/

def infoScanClause (k : Str) : Str :=
  ("if (x[i]~\"^".data) ++ k ++ ("=\" || x[i]==\"".data) ++ k
  ++ ("\") \x7b split(x[i],info,\"=\"); if (length(info)==1) \x7b INFO_".data) ++ k
  ++ ("=1\x7d else \x7bINFO_".data) ++ k ++ ("=info[2]\x7d \x7d".data)

/-- The opening of the annotation prologue: split the annotation column and
loop over its entries (src/vawk.py 214-218). -/

def infoScanOpen (c : Nat) : Str :=
  ("split($".data) ++ natToStr c ++ (",x,\";\"); for (i=1;i<=length(x);++i) \x7b ".data)

/-- The full annotation prologue prepended ahead of the user body
(src/vawk.py 214-233). -/

def infoPrologue (c : Nat) (keys : List Str) : Str :=
  infoScanOpen c ++ joinSep (" ".data) (keys.map infoScanClause) ++ ("\x7d ".data)

/-- The per-key substitution loop `re.sub("I\$" + key, "INFO_" + key, ...)`
(src/vawk.py 235-237), applied over the keys in order.  The pattern has no
look-ahead.  Keys are word-character runs, so the pattern is a literal. -/

def infoSubsts (keys : List Str) (s : Str) : Str :=
  keys.foldl (fun acc k => subLA (("I$".data) ++ k) noLA (("INFO_".data) ++ k) acc) s

/-- The whole annotation step (src/vawk.py 210-237): when `I$` occurs in
the per-line text, prepend the prologue and apply the substitutions to the
result; otherwise leave the text unchanged. -/

def infoStep (c : Nat) (keys : List Str) (p : Str) : Str :=
  if hasInfoRef p then infoSubsts keys (infoPrologue c keys ++ p) else p

/-!
Sample code generation (src/vawk.py lines 256-319), the rename pass
(321-351), the reset statements (353-363), the FORMAT split (366), the
header dispatch (369-384) and the assembly (386-396).
-/

/-- The generated variable name `SAMPLE_<clean>_<field>` (the
`"_".join([s_obj.name_clean, s_obj.field])` expressions). -/

def sampleVarName (q : SampleQ) : Str :=
  ("SAMPLE_".data) ++ nameClean q.name_raw ++ ['_'] ++ q.field

/-- The per-sample prologue snippet: one of the four branches at
src/vawk.py 256-319, selected on `field == "ALL"` and `name_clean == "*"`.
`sc` is `samples_start_col`. -/

def sampleSnippet (sc : Nat) (q : SampleQ) : Str :=
  if q.field = ("ALL".data) then
    if nameClean q.name_raw = ['*'] then
      ("ALLSAMPLES_".data) ++ q.field ++ ("=\"\"; for (COL=".data) ++ natToStr sc
      ++ (";COL<=NF-1;++COL) \x7b ALLSAMPLES_".data) ++ q.field
      ++ ("=ALLSAMPLES_".data) ++ q.field
      ++ ("\"\"$COL\"\\t\" \x7d; ALLSAMPLES_".data) ++ q.field
      ++ ("=ALLSAMPLES_".data) ++ q.field ++ ("\"\"$NF; ".data)
    else
      sampleVarName q ++ ("=$SAMPLE[\"".data) ++ q.name_raw ++ ("\"]; ".data)
  else
    if nameClean q.name_raw = ['*'] then
      ("ALLSAMPLES_".data) ++ q.field
      ++ ("=\"\"; for(i=1;i<=length(fmt);++i) \x7b if (fmt[i]==\"".data) ++ q.field
      ++ ("\") \x7b fmt_key=i; break \x7d \x7d; for (COL=".data) ++ natToStr sc
      ++ (";COL<=NF-1;++COL) \x7b split($COL,samp,\":\"); ALLSAMPLES_".data) ++ q.field
      ++ ("=ALLSAMPLES_".data) ++ q.field
      ++ ("\"\"samp[fmt_key]\"\\t\" \x7d; split($NF,samp,\":\"); ALLSAMPLES_".data) ++ q.field
      ++ ("=ALLSAMPLES_".data) ++ q.field ++ ("\"\"samp[fmt_key]; ".data)
    else
      ("split($SAMPLE[\"".data) ++ q.name_raw
      ++ ("\"],samp,\":\"); for(i=1;i<=length(fmt);++i) \x7b if (fmt[i]==\"".data) ++ q.field
      ++ ("\") \x7b SAMPLE_".data) ++ nameClean q.name_raw ++ ['_'] ++ q.field
      ++ ("=samp[i]; break \x7d \x7d ".data)

/-- One iteration of the prologue loop at src/vawk.py 256: the snippet is
prepended to the accumulated per-line text. -/

def samplePrologueStep (sc : Nat) (acc : Str) (q : SampleQ) : Str :=
  sampleSnippet sc q ++ acc

/-- The literal text of the rename pattern for one sample object
(src/vawk.py 321-351).  The source builds a regex from `name_escaped`
(hyphen and period backslash-escaped), whose regex meaning for names drawn
from `[a-zA-Z0-9_\-\.]` is exactly the literal `name_raw`; the embedded
pattern is that literal.  (A scanned name containing `*` or `^` — other
than the exact wildcard name `*` — would make the source's pattern a
non-literal regex; no proved statement instantiates such a name.) -/

def renameLit (q : SampleQ) : Str :=
  if q.field = ("ALL".data) then
    if nameClean q.name_raw = ['*'] then ("S$*".data)
    else ("S$".data) ++ q.name_raw
  else
    if nameClean q.name_raw = ['*'] then ("S$*$".data) ++ q.field
    else ("S$".data) ++ q.name_raw ++ ['$'] ++ q.field

/-- The replacement text of the rename pass for one sample object
(src/vawk.py 321-351). -/

def renameRepl (q : SampleQ) : Str :=
  if nameClean q.name_raw = ['*'] then ("ALLSAMPLES_".data) ++ q.field
  else sampleVarName q

/-- One `re.sub` of the rename pass: literal pattern plus the negative
look-ahead `(?![$_\-\.a-zA-Z0-9])`. -/

def renameStep (acc : Str) (q : SampleQ) : Str :=
  subLA (renameLit q) laPred (renameRepl q) acc

/-- The rename pass (src/vawk.py 322-351): guarded by
`re.search("S\$", perline)`, one guarded substitution per sample object in
order. -/

def renamePass (qs : List SampleQ) (s : Str) : Str :=
  if occursB ("S$".data) s then qs.foldl renameStep s else s

/-- The reset statement for an annotation key (src/vawk.py 354-355). -/

def infoResetStr (k : Str) : Str :=
  ("INFO_".data) ++ k ++ ("=\"\"; ".data)

/-- The reset statement for a sample variable (src/vawk.py 356-363). -/

def sampleResetStr (q : SampleQ) : Str :=
  sampleVarName q ++ ("=\"\"; ".data)

/-- One iteration of the annotation reset loop (src/vawk.py 354-355):
prepend the reset. -/

def infoResetStep (acc : Str) (k : Str) : Str :=
  infoResetStr k ++ acc

/-- One iteration of the sample reset loop (src/vawk.py 356-363): prepend
the reset unless the name is the wildcard. -/

def sampleResetStep (acc : Str) (q : SampleQ) : Str :=
  if nameClean q.name_raw ≠ ['*'] then sampleResetStr q ++ acc else acc

/-- The FORMAT-column split prepended at src/vawk.py 366 (`n` is
`format_col = info_col + 1`). -/

def fmtSplitStr (n : Nat) : Str :=
  ("split($".data) ++ natToStr n ++ (",fmt,\":\"); ".data)

/-- The opening of the header-dispatch wrapper (src/vawk.py 369-384): meta
lines and the header line are handled first; `sc` is `samples_start_col`;
with `--header` the header line is printed, otherwise skipped. -/

def headerWrapOpen (header : Bool) (sc : Nat) : Str :=
  ("if ($0~\"^#\") \x7bif ($0!~\"^##\") \x7b for (i=".data) ++ natToStr sc
  ++ (if header then (";i<=NF;++i) SAMPLE[$i]=i; \x7d; print\x7d else \x7b".data)
      else (";i<=NF;++i) SAMPLE[$i]=i; \x7d; next\x7d else \x7b".data))

/-- The generated per-line program text (src/vawk.py 205-384): annotation
step, sample scan and objects, sample prologues, rename pass, resets,
FORMAT split, header wrapper.  `.error n` models `exit(n)`. -/

def buildPerline (header : Bool) (c : Nat) (p0 : Str) : Except Nat Str :=
  let keys := infoKeysOf p0
  let p1 := infoStep c keys p0
  match sampleInitAll (sampleToksOf p1) with
  | .error n => .error n
  | .ok qs =>
    let p2 := qs.foldl (samplePrologueStep (c + 2)) p1
    let p3 := renamePass qs p2
    let p4 := keys.foldl infoResetStep p3
    let p5 := qs.foldl sampleResetStep p4
    let p6 := fmtSplitStr (c + 1) ++ p5
    .ok (headerWrapOpen header (c + 2) ++ p6 ++ ['\x7d'])

/-- Failure modes of a whole invocation: an uncaught Python exception, or
`exit(n)`. -/

inductive VawkErr where
  | pyCrash (e : PyErr)
  | exitCode (n : Nat)
deriving DecidableEq, Repr

/-- The `BEGIN` block of the assembled program (src/vawk.py 386-389): fix
`FS` and `OFS` to a tab, then the user's begin text. -/

def beginBlockStr (bgn : Str) : Str :=
  ("BEGIN \x7bFS=\"\\t\"; OFS=\"\\t\"; ".data) ++ bgn ++ ['\x7d']

/-- Assembly of the final program text from the parsed segments
(src/vawk.py 386-396), after the per-line build. -/

def vawkAssembleParts (header : Bool) (c : Nat) (bgn p0 fin : Str) : Except VawkErr Str :=
  match buildPerline header c p0 with
  | .error n => .error (.exitCode n)
  | .ok pl =>
    .ok (beginBlockStr bgn ++ (" \x7b".data) ++ pl ++ ("\x7d ".data)
         ++ ("END \x7b".data) ++ fin ++ ['\x7d'])

/-- The whole pure front half of `vawk`: parse the raw DSL string, then
build and assemble the program text handed to the child engine. -/

def vawkFull (header : Bool) (c : Nat) (raw : Str) : Except VawkErr Str :=
  match parse raw with
  | .error e => .error (.pyCrash e)
  | .ok (bgn, p0, fin) => vawkAssembleParts header c bgn p0 fin

/-!
The execution adapter (src/vawk.py 398-428).
-/

/-- Python `bytes.rstrip()` with no argument: strip ALL trailing ASCII
whitespace (not merely the line terminator). -/

def pyBytesRstrip (b : Str) : Str :=
  (b.reverse.dropWhile isSpace).reverse

/-- One hex digit of Python's `\xNN` byte escape. -/

def hexDigit (n : Nat) : Char :=
  Char.ofNat (if n < 10 then 48 + n else 87 + n)

/-- The rendering of one byte inside Python's `repr` of a bytes object with
quote character `q`. -/

def byteReprChar (q : Char) (c : Char) : Str :=
  if c = '\\' then ['\\', '\\']
  else if c = q then ['\\', q]
  else if c = '\t' then ['\\', 't']
  else if c = '\n' then ['\\', 'n']
  else if c = '\r' then ['\\', 'r']
  else if 32 ≤ c.toNat ∧ c.toNat ≤ 126 then [c]
  else ['\\', 'x', hexDigit (c.toNat / 16 % 16), hexDigit (c.toNat % 16)]

/-- Python `repr` of a bytes object — what `print` writes when handed
`bytes` rather than `str`: a `b` prefix, a quote (single unless the bytes
hold a single quote and no double quote), the escaped bytes, a quote. -/

def pyBytesRepr (b : Str) : Str :=
  let q := if b.contains '\x27' && !(b.contains '"') then '"' else '\x27'
  ('b' :: q :: (b.map (byteReprChar q)).join) ++ [q]

/-- What one iteration of the output loop at src/vawk.py 404-405 writes to
stdout: `p.stdout.readline` yields a BYTES line, so `print(line.rstrip())`
writes the Python repr of the rstripped bytes, then a newline. -/

def adapterEmitLine (line : Str) : Str :=
  pyBytesRepr (pyBytesRstrip line) ++ ['\n']

/-- The program's whole stdout for a given sequence of child-output lines
(the loop at src/vawk.py 404-405 run to end of stream). -/

def adapterOutput (lines : List Str) : Str :=
  (lines.map adapterEmitLine).join

/-- The value returned by `vawk` (src/vawk.py 398-407): the function drains
the child's output and ends in a bare `return`.  It never calls `p.wait()`
and never reads `p.returncode`, so its value is `None` whatever the child's
lines or exit status were. -/

def vawkReturnValue (lines : List Str) (childStatus : Int) : Option Int :=
  none

/-- Python `sys.exit(v)`: `None` exits with status 0, an int with that
status. -/

def pySysExitCode : Option Int → Int
  | none => 0
  | some n => n

/-- The process exit status of a successful invocation (src/vawk.py
414-428): `main` returns `vawk(...)`, and `sys.exit(main())` maps the
returned `None` to exit status 0. -/

def mainExitCode (lines : List Str) (childStatus : Int) : Int :=
  pySysExitCode (vawkReturnValue lines childStatus)

/-!
Generic lemmas about the string machinery.
-/

/-- The sample prologue text accumulated by the loop at src/vawk.py 256,
starting from nothing (later snippets end up in front). -/

def sampleProloguesStr (sc : Nat) (qs : List SampleQ) : Str :=
  qs.foldl (samplePrologueStep sc) []

/-- The annotation reset text accumulated by the loop at src/vawk.py
354-355, starting from nothing. -/

def infoResetsStr (keys : List Str) : Str :=
  keys.foldl infoResetStep []

/-- The sample reset text accumulated by the loop at src/vawk.py 356-363,
starting from nothing. -/

def sampleResetsStr (qs : List SampleQ) : Str :=
  qs.foldl sampleResetStep []

/-!
Lemmas about `splitOnChar` and `sampleInit` (claim C4).
-/

/-!
Claim theorems.
-/

/-- Character classification used to state that the brace scan of `parse`
looks at braces only: open brace, close brace, or anything else. -/

def braceClass (c : Char) : Nat :=
  if c = '\x7b' then 0 else if c = '\x7d' then 1 else 2

/-- `findClose` on the brace classes alone. -/

def findCloseC : List Nat → Int → Option Nat
  | [], _ => none
  | k :: ks, op =>
    if k = 0 then (findCloseC ks (op + 1)).map (· + 1)
    else if k = 1 then
      if op - 1 = 0 then some 0 else (findCloseC ks (op - 1)).map (· + 1)
    else (findCloseC ks op).map (· + 1)

/-- The concrete DSL used to exhibit the assembly order. -/

def c7dsl : Str := ("\x7b print I$AF, S$NA \x7d").data

/-- The program text the pipeline assembles for `c7dsl` with the default
column (8) and no header echo. -/

def c7assembled : Str := (vawkFull false 8 c7dsl).toOption.getD []

example : parse (("\x7b print \x7d").data) =
    .ok (([] : Str), (" print ".data), ([] : Str)) := by decide

example : parse (("BEGIN \x7bx\x7d \x7by\x7d END \x7bz\x7d").data) =
    .ok (("x".data), ("y".data), ("z".data)) := by decide

/-- A list is a Bool-prefix of itself followed by anything. -/
theorem isPrefixOf_append_self (n b : Str) : n.isPrefixOf (n ++ b) = true := by
  induction n with
  | nil => simp [List.isPrefixOf]
  | cons c cs ih => simp [List.isPrefixOf, ih]

/-- Bool-prefix is stable under extending the larger list on the right. -/
theorem isPrefixOf_append_of (n : Str) : ∀ t b : Str,
    n.isPrefixOf t = true → n.isPrefixOf (t ++ b) = true := by
  induction n with
  | nil => intro t b _; simp [List.isPrefixOf]
  | cons c cs ih =>
    intro t b h
    cases t with
    | nil => simp [List.isPrefixOf] at h
    | cons d ds =>
      simp only [List.isPrefixOf, List.cons_append, Bool.and_eq_true] at h ⊢
      exact ⟨h.1, ih ds b h.2⟩

/-- The empty needle occurs in every haystack. -/
theorem occursB_nil (h : Str) : occursB [] h = true := by
  cases h <;> simp [occursB, List.isPrefixOf]

/-- A needle occurs in any haystack that starts with it. -/
theorem occursB_here (n b : Str) : occursB n (n ++ b) = true := by
  cases n with
  | nil => exact occursB_nil b
  | cons c cs =>
    simp only [List.cons_append, occursB]
    have h := isPrefixOf_append_self (c :: cs) b
    simp only [List.cons_append] at h
    simp [h]

/-- Occurrence is stable under prepending text. -/
theorem occursB_append_l (n : Str) : ∀ a t : Str,
    occursB n t = true → occursB n (a ++ t) = true := by
  intro a
  induction a with
  | nil => intro t h; simpa using h
  | cons c cs ih =>
    intro t h
    rw [List.cons_append, occursB]
    simp [ih t h]

/-- Occurrence is stable under appending text. -/
theorem occursB_append_r (n : Str) : ∀ t b : Str,
    occursB n t = true → occursB n (t ++ b) = true := by
  intro t
  induction t with
  | nil =>
    intro b h
    rw [occursB] at h
    have hn : n = [] := by simpa using h
    subst hn
    exact occursB_nil b
  | cons c cs ih =>
    intro b h
    rw [occursB] at h
    rw [List.cons_append, occursB]
    rcases (Bool.or_eq_true _ _).mp h with h1 | h2
    · have h1' := isPrefixOf_append_of n (c :: cs) b h1
      simp only [List.cons_append] at h1'
      simp [h1']
    · simp [ih b h2]

/-- A needle occurs in any sandwich around it. -/
theorem occursB_sandwich (a n b : Str) : occursB n (a ++ n ++ b) = true := by
  rw [List.append_assoc]
  exact occursB_append_l n a (n ++ b) (occursB_here n b)

/-- Fueled version: when no guarded match exists anywhere in `s` and the
fuel covers the length, `subLAGo` is the identity. -/
theorem subLAGo_no_match (lit : Str) (bad : Char → Bool) (repl : Str) :
    ∀ (fuel : Nat) (s : Str), s.length ≤ fuel →
      hasMatchLA lit bad s = false → subLAGo lit bad repl fuel s = s := by
  intro fuel
  induction fuel with
  | zero =>
    intro s hl _
    cases s with
    | nil => rw [subLAGo]
    | cons c cs => simp at hl
  | succ fuel ih =>
    intro s hl h
    cases s with
    | nil => rw [subLAGo]
    | cons c cs =>
      rw [hasMatchLA] at h
      rcases Bool.or_eq_false_iff.mp h with ⟨h1, h2⟩
      rw [subLAGo, if_neg (by simp [h1]), ih cs (by simp at hl; omega) h2]

/-- When no guarded match exists anywhere in `s`, `subLA` is the
identity. -/
theorem subLA_no_match (lit : Str) (bad : Char → Bool) (repl : Str)
    (s : Str) (h : hasMatchLA lit bad s = false) : subLA lit bad repl s = s :=
  subLAGo_no_match lit bad repl s.length s le_rfl h

/-- Prepending folds: running a prepend-step fold from `P` equals running
it from `[]` and appending `P`. -/
theorem foldl_prepend {α : Type} (g : α → Str) (l : List α) :
    ∀ P : Str, l.foldl (fun acc x => g x ++ acc) P
      = l.foldl (fun acc x => g x ++ acc) [] ++ P := by
  induction l with
  | nil => intro P; simp
  | cons x xs ih =>
    intro P
    simp only [List.foldl_cons]
    rw [ih (g x ++ P), ih (g x ++ [])]
    simp

/-- Splitting the sample prologue fold. -/
theorem samplePrologues_split (sc : Nat) (qs : List SampleQ) (P : Str) :
    qs.foldl (samplePrologueStep sc) P = sampleProloguesStr sc qs ++ P :=
  foldl_prepend (sampleSnippet sc) qs P

/-- Splitting the annotation reset fold. -/
theorem infoResets_split (keys : List Str) (P : Str) :
    keys.foldl infoResetStep P = infoResetsStr keys ++ P :=
  foldl_prepend infoResetStr keys P

/-- One guarded reset step is a prepend. -/
theorem sampleResetStep_split (P : Str) (q : SampleQ) :
    sampleResetStep P q = sampleResetStep [] q ++ P := by
  rw [sampleResetStep, sampleResetStep]
  split <;> simp

/-- Splitting the sample reset fold. -/
theorem sampleResets_split (qs : List SampleQ) :
    ∀ P : Str, qs.foldl sampleResetStep P = sampleResetsStr qs ++ P := by
  induction qs with
  | nil => intro P; simp [sampleResetsStr]
  | cons q qs ih =>
    intro P
    simp only [List.foldl_cons, sampleResetsStr]
    rw [ih (sampleResetStep P q), ih (sampleResetStep [] q),
        sampleResetStep_split P q]
    simp

/-- The structure of the generated per-line text: the header-wrapper
opening, the FORMAT split, the sample resets, the annotation resets, then
the renamed region holding the sample prologues followed by the annotation
step's output (annotation prologue, substituted, then the user body), and
the closing brace — in that textual order. -/
theorem buildPerline_eq (header : Bool) (c : Nat) (p0 : Str) (qs : List SampleQ)
    (hq : sampleInitAll (sampleToksOf (infoStep c (infoKeysOf p0) p0)) = .ok qs) :
    buildPerline header c p0
      = .ok (headerWrapOpen header (c + 2) ++ fmtSplitStr (c + 1)
          ++ sampleResetsStr qs ++ infoResetsStr (infoKeysOf p0)
          ++ renamePass qs (sampleProloguesStr (c + 2) qs
               ++ infoStep c (infoKeysOf p0) p0)
          ++ ['\x7d']) := by
  rw [buildPerline]
  simp only [hq]
  rw [samplePrologues_split, infoResets_split, sampleResets_split]
  simp [List.append_assoc]

/-- A needle occurs in itself. -/
theorem occursB_self (n : Str) : occursB n n = true := by
  have h := occursB_here n []
  simpa using h

/-- Unfolding one annotation reset from the fold. -/
theorem infoResetsStr_cons (k : Str) (ks : List Str) :
    infoResetsStr (k :: ks) = infoResetsStr ks ++ infoResetStr k := by
  rw [infoResetsStr, List.foldl_cons, infoResets_split]
  simp [infoResetStep]

/-- Every requested key's reset statement occurs in the accumulated
annotation reset text. -/
theorem occursB_infoResets (key : Str) : ∀ keys : List Str, key ∈ keys →
    occursB (infoResetStr key) (infoResetsStr keys) = true := by
  intro keys
  induction keys with
  | nil => intro hk; cases hk
  | cons k ks ih =>
    intro hk
    rw [infoResetsStr_cons]
    rcases List.mem_cons.mp hk with h | h
    · subst h
      exact occursB_append_l _ _ _ (occursB_self _)
    · exact occursB_append_r _ _ _ (ih h)

/-- A member of the joined list occurs in the join. -/
theorem occursB_joinSep (sep x : Str) : ∀ l : List Str, x ∈ l →
    occursB x (joinSep sep l) = true := by
  intro l
  induction l with
  | nil => intro hx; cases hx
  | cons y t ih =>
    intro hx
    cases t with
    | nil =>
      rcases List.mem_cons.mp hx with h | h
      · subst h; rw [joinSep]; exact occursB_self x
      · cases h
    | cons z ts =>
      rw [joinSep]
      rcases List.mem_cons.mp hx with h | h
      · subst h
        rw [List.append_assoc]
        exact occursB_here x _
      · exact occursB_append_l _ _ _ (ih h)

/-- A string free of the separator splits into itself alone. -/
theorem splitOnChar_count_zero (c : Char) : ∀ s : Str, s.count c = 0 →
    splitOnChar c s = [s] := by
  intro s
  induction s with
  | nil => intro _; rw [splitOnChar]
  | cons d ds ih =>
    intro h
    rw [List.count_cons] at h
    have hd : ¬ d = c := by
      intro he
      simp [he] at h
    have hds : ds.count c = 0 := by omega
    rw [splitOnChar]
    simp only [ih hds]
    simp [hd]

/-- A string with exactly one separator splits into the two surrounding
pieces. -/
theorem splitOnChar_count_one (c : Char) : ∀ s : Str, s.count c = 1 →
    ∃ n f : Str, s = n ++ c :: f ∧ splitOnChar c s = [n, f] := by
  intro s
  induction s with
  | nil => intro h; simp [List.count_nil] at h
  | cons d ds ih =>
    intro h
    rw [List.count_cons] at h
    by_cases hd : d = c
    · subst hd
      have hds : ds.count d = 0 := by simp at h; omega
      refine ⟨[], ds, by simp, ?_⟩
      rw [splitOnChar]
      simp [splitOnChar_count_zero d ds hds]
    · have hds : ds.count c = 1 := by simp [hd] at h; omega
      rcases ih hds with ⟨n, f, hs, hsplit⟩
      refine ⟨d :: n, f, by simp [hs], ?_⟩
      rw [splitOnChar]
      simp only [hsplit]
      simp [hd]

/-- `Sample.__init__` on a token with no separator: a whole-record
reference. -/
theorem sampleInit_zero (s : Str) (h : s.count '$' = 0) :
    sampleInit s = .ok ⟨s, s, ("ALL".data)⟩ := by
  rw [sampleInit, splitOnChar_count_zero '$' s h]

/-- `Sample.__init__` on a token with one separator: a subfield
reference. -/
theorem sampleInit_one (s : Str) (h : s.count '$' = 1) :
    ∃ n f : Str, s = n ++ '$' :: f ∧ sampleInit s = .ok ⟨s, n, f⟩ := by
  rcases splitOnChar_count_one '$' s h with ⟨n, f, hs, hsplit⟩
  exact ⟨n, f, hs, by rw [sampleInit, hsplit]⟩

/-- The length of a split is the separator count plus one. -/
theorem splitOnChar_length (c : Char) : ∀ s : Str,
    (splitOnChar c s).length = s.count c + 1 := by
  intro s
  induction s with
  | nil => rw [splitOnChar]; simp
  | cons d ds ih =>
    rw [splitOnChar, List.count_cons]
    by_cases hd : d = c
    · simp [hd, ih]
    · simp only [hd, if_neg]
      rcases he : splitOnChar c ds with _ | ⟨h1, t1⟩
      · rw [he] at ih; simp at ih
      · rw [he] at ih
        simp only [List.length_cons] at ih ⊢
        simp [hd, ih]

/-- `Sample.__init__` on a token with two or more separators: error
message and `exit(1)`. -/
theorem sampleInit_two (s : Str) (h : 2 ≤ s.count '$') :
    sampleInit s = .error 1 := by
  have hl : 3 ≤ (splitOnChar '$' s).length := by
    rw [splitOnChar_length]
    omega
  rcases he : splitOnChar '$' s with _ | ⟨a, _ | ⟨b, _ | ⟨d, t⟩⟩⟩
  · rw [he] at hl; simp at hl
  · rw [he] at hl; simp at hl
  · rw [he] at hl; simp at hl
  · rw [sampleInit, he]

/-- Any `sampleInit` error is `exit(1)`. -/
theorem sampleInit_error_eq_one (s : Str) (n : Nat)
    (h : sampleInit s = .error n) : n = 1 := by
  rw [sampleInit] at h
  rcases he : splitOnChar '$' s with _ | ⟨a, _ | ⟨b, _ | ⟨d, t⟩⟩⟩ <;>
    rw [he] at h <;> simp at h <;> omega

/-- A bad token anywhere in the scanned list makes the Sample-building
loop terminate the process with exit status 1. -/
theorem sampleInitAll_err : ∀ l : List Str,
    (∃ t ∈ l, 2 ≤ t.count '$') → sampleInitAll l = .error 1 := by
  intro l
  induction l with
  | nil => intro h; rcases h with ⟨t, ht, _⟩; cases ht
  | cons x xs ih =>
    intro h
    rw [sampleInitAll]
    rcases h with ⟨t, ht, hc⟩
    rcases List.mem_cons.mp ht with h1 | h1
    · subst h1
      rw [sampleInit_two t hc]
    · rcases he : sampleInit x with n | q
      · rw [sampleInit_error_eq_one x n he]
      · rw [ih ⟨t, h1, hc⟩]

/-- C1: on a raw DSL string whose `BEGIN` opener's braces never close, the
embedded `parse` reaches the end of the string and fails with
`PyErr.indexError` — the model of the uncaught Python `IndexError` raised
by `raw[b]` at src/vawk.py line 108.  The scan therefore does NOT report a
structured `UnbalancedBlock` error as the claim requires: the process dies
with an unhandled exception (a traceback), which is the divergence recorded
for this claim. -/
theorem C1_unbalanced_scan_crash :
    parse (("BEGIN \x7b print $1").data) = .error .indexError := by decide

/-- C2 counterexample: the claim says the child's exit status is propagated
verbatim as the program's own exit code; on the code, a child exiting 1
still yields program exit status 0, because `vawk` never calls `p.wait()`
nor reads `p.returncode` and returns `None`, which `sys.exit(main())` maps
to 0. -/
theorem C2_cex : ¬ (mainExitCode [("out").data] 1 = 1) := by decide

/-- C2 (amended): after the child's output stream is drained the program
exits with status 0 regardless of the child's exit status (the child is
never explicitly reaped; only a broken-pipe `IOError` — errno 32 — is
suppressed on the way out, all of which still ends in exit status 0). -/
theorem C2_exit_always_zero (lines : List Str) (childStatus : Int) :
    mainExitCode lines childStatus = 0 := rfl

/-- C3: the output loop at src/vawk.py 404-405 reads BYTES lines from the
child and hands `line.rstrip()` — still bytes — to `print`, so what reaches
this program's output is the Python repr of the bytes object
(`b'foo'`), not the line verbatim; moreover `rstrip()` removes all trailing
whitespace, not only the line terminator.  For the child line `b"foo\n"`
the program writes `b'foo'` plus a newline, not `foo` plus a newline. -/
theorem C3_bytes_repr_output :
    adapterOutput [(("foo\n").data)]
      = 'b' :: '\x27' :: 'f' :: 'o' :: 'o' :: '\x27' :: '\n' :: []
    ∧ ¬ (adapterOutput [(("foo\n").data)] = ("foo\n").data) := by decide

/-- C6 counterexample: the claim says every reference substitution matches
the reference exactly and never fires on a shorter reference inside a
longer one (explicitly "for annotation references as well as sample
references").  The annotation substitution `re.sub("I\$" + key, ...)` at
src/vawk.py line 237 has no look-ahead: substituting key `AF` in a text
whose only occurrence of `I$AF` lies inside the longer reference `I$AFR`
(followed by the identifier character `R`) rewrites it. -/
theorem C6_cex :
    infoSubsts [("AF").data] ((" I$AFR ").data) = ((" INFO_AFR ").data)
    ∧ ((" INFO_AFR ").data) ≠ ((" I$AFR ").data) := by decide

/-- C6 (amended): the look-ahead guard exists for SAMPLE references only.
A sample rename substitution (src/vawk.py 321-351) whose pattern never
matches with the look-ahead satisfied — in particular when every occurrence
of the pattern is followed by an identifier character, the subfield
separator `$`, a hyphen or a period — leaves the text unchanged.  The
annotation substitution has no such guard (see the counterexample). -/
theorem C6_lookahead_guard (q : SampleQ) (s : Str)
    (h : hasMatchLA (renameLit q) laPred s = false) :
    renameStep s q = s :=
  subLA_no_match (renameLit q) laPred (renameRepl q) s h

/-- Witness for C6 (amended): renaming `S$NA` does not fire inside the
longer reference `S$NA12878` (the match is followed by `1`). -/
theorem C6_lookahead_guard_witness :
    renameStep ((" print S$NA12878; ").data)
        ⟨("NA").data, ("NA").data, ("ALL").data⟩
      = ((" print S$NA12878; ").data) :=
  C6_lookahead_guard ⟨("NA").data, ("NA").data, ("ALL").data⟩
    ((" print S$NA12878; ").data) (by decide)

/-- The brace scan factors through the brace classes of the characters. -/
theorem findClose_eq_classes : ∀ (s : Str) (d : Int),
    findClose s d = findCloseC (s.map braceClass) d := by
  intro s
  induction s with
  | nil => intro d; rfl
  | cons c cs ih =>
    intro d
    rw [findClose, List.map_cons, findCloseC]
    by_cases h1 : c = '\x7b'
    · simp [braceClass, h1, ih]
    · by_cases h2 : c = '\x7d'
      · simp [braceClass, h1, h2, ih]
      · simp [braceClass, h1, h2, ih]

/-- C9: the block scan of `parse` counts every `{` and `}` literally and is
blind to everything else — its result depends only on each character's
brace class, so a `}` inside a quoted string closes the block.  Concretely,
for `BEGIN {print "}"} {print}` the extracted BEGIN body is `print "` —
cut at the in-string brace, not at the block's syntactic close — and the
leftover quote and brace material lands in the per-line segment. -/
theorem C9_brace_scan_literal :
    (∀ (s t : Str) (d : Int), s.map braceClass = t.map braceClass →
        findClose s d = findCloseC (t.map braceClass) d)
    ∧ parse (("BEGIN \x7bprint \"\x7d\"\x7d \x7bprint\x7d").data)
        = .ok (("print \"").data,
               ("if (\"\x7d \x7bprint\x7d) print ; ").data, ([] : Str)) := by
  constructor
  · intro s t d h
    rw [findClose_eq_classes, h]
  · decide

/-- Witness for C9: two BEGIN-style bodies agreeing on brace positions but
differing everywhere else (quotes included) get the same close index. -/
theorem C9_brace_scan_literal_witness :
    findClose (("a\"\x7bb\x7d c").data) 0
      = findCloseC ((("x)\x7by\x7d\"z").data).map braceClass) 0 :=
  C9_brace_scan_literal.1 (("a\"\x7bb\x7d c").data) (("x)\x7by\x7d\"z").data) 0
    (by decide)

/-- C8: whenever `parse` succeeds, the per-line segment is formed from the
remainder after removing the BEGIN span and then the END span: the
remainder is stripped; if it begins with `{` and ends with `}` exactly one
brace is dropped from each end, otherwise it is wrapped as the bare
condition `if (...) print ; `. -/
theorem C8_perline_formation (raw bgn p fin : Str)
    (h : parse raw = .ok (bgn, p, fin)) :
    ∃ r1 r2 : Str, extractBlock (("BEGIN").data) raw = .ok (bgn, r1)
      ∧ extractBlock (("END").data) r1 = .ok (fin, r2)
      ∧ p = (if (pyStrip r2).head? = some '\x7b' ∧ (pyStrip r2).getLast? = some '\x7d'
             then pyDrop1both (pyStrip r2)
             else (("if (").data) ++ pyStrip r2 ++ ((") print ; ").data)) := by
  unfold parse at h
  rcases hb : extractBlock (("BEGIN").data) raw with e | ⟨b1, r1⟩ <;> rw [hb] at h
  · simp at h
  · dsimp only at h
    rcases he : extractBlock (("END").data) r1 with e | ⟨f1, r2⟩ <;> rw [he] at h
    · simp at h
    · dsimp only at h
      have h2 := Except.ok.inj h
      injection h2 with ha hrest
      injection hrest with hb2 hc
      subst ha
      subst hc
      subst hb2
      exact ⟨r1, r2, rfl, he, rfl⟩

/-- Witness for C8 on the balanced DSL `BEGIN {x} {y} END {z}`: parse
succeeds with segments `x`, `y`, `z` and the per-line segment is the
brace-stripped remainder. -/
theorem C8_perline_formation_witness :
    ∃ r1 r2 : Str,
      extractBlock (("BEGIN").data) (("BEGIN \x7bx\x7d \x7by\x7d END \x7bz\x7d").data)
        = .ok ((("x").data), r1)
      ∧ extractBlock (("END").data) r1 = .ok ((("z").data), r2)
      ∧ (("y").data)
          = (if (pyStrip r2).head? = some '\x7b' ∧ (pyStrip r2).getLast? = some '\x7d'
             then pyDrop1both (pyStrip r2)
             else (("if (").data) ++ pyStrip r2 ++ ((") print ; ").data)) :=
  C8_perline_formation (("BEGIN \x7bx\x7d \x7by\x7d END \x7bz\x7d").data)
    (("x").data) (("y").data) (("z").data) (by decide)

/-- C4: the three-way case split of sample-reference tokenisation.  A token
with no subfield separator is a whole-record reference (`field = ALL`); a
token with exactly one separator is a subfield reference carrying the text
after the separator; a token with two or more separators makes the whole
invocation fail with exit status 1 before any program text is assembled —
`vawkAssembleParts` returns the exit code instead of a program, so no child
engine is spawned and no output is produced. -/
theorem C4_sample_reference_cases :
    (∀ s : Str, s.count '$' = 0 → sampleInit s = .ok ⟨s, s, ("ALL").data⟩)
    ∧ (∀ s : Str, s.count '$' = 1 →
        ∃ n f : Str, s = n ++ '$' :: f ∧ sampleInit s = .ok ⟨s, n, f⟩)
    ∧ (∀ (header : Bool) (c : Nat) (bgn p0 fin : Str),
        (∃ t ∈ sampleToksOf (infoStep c (infoKeysOf p0) p0), 2 ≤ t.count '$') →
        vawkAssembleParts header c bgn p0 fin = .error (.exitCode 1)) := by
  refine ⟨sampleInit_zero, sampleInit_one, ?_⟩
  intro header c bgn p0 fin hbad
  simp only [vawkAssembleParts, buildPerline]
  rw [sampleInitAll_err _ hbad]

/-- Witness for C4: `NA` is a whole-record reference, `NA$GT` a subfield
reference, and a command whose per-line text holds the two-separator token
`NA$GT$X` terminates with exit status 1 and no assembled program. -/
theorem C4_sample_reference_cases_witness :
    sampleInit (("NA").data) = .ok ⟨("NA").data, ("NA").data, ("ALL").data⟩
    ∧ (∃ n f : Str, ("NA$GT").data = n ++ '$' :: f
        ∧ sampleInit (("NA$GT").data) = .ok ⟨("NA$GT").data, n, f⟩)
    ∧ vawkAssembleParts false 8 [] ((" print S$NA$GT$X ").data) []
        = .error (.exitCode 1) :=
  ⟨C4_sample_reference_cases.1 (("NA").data) (by decide),
   C4_sample_reference_cases.2.1 (("NA$GT").data) (by decide),
   C4_sample_reference_cases.2.2 false 8 [] ((" print S$NA$GT$X ").data) []
     ⟨("NA$GT$X").data, by decide, by decide⟩⟩

/-- C5: for every requested annotation key, the generated per-record code
places that key's reset statement `INFO_<key>="";` in the reset region,
which lies textually (and so executes) BEFORE the whole renamed
prologue-and-body region; that later region opens with the sample
prologues followed by the annotation step's output, which under an
existing annotation reference is the annotation-scan snippet (the
prologue splitting the annotation column and binding the keys) ahead of
the user body.  An absent key therefore leaves the variable at the empty
value set by the reset, never at a previous record's value. -/
theorem C5_reset_before_annot_scan (header : Bool) (c : Nat) (p0 key : Str)
    (qs : List SampleQ)
    (hk : key ∈ infoKeysOf p0)
    (hI : hasInfoRef p0 = true)
    (hq : sampleInitAll (sampleToksOf (infoStep c (infoKeysOf p0) p0)) = .ok qs) :
    ∃ pre : Str,
      buildPerline header c p0
        = .ok (pre ++ (renamePass qs (sampleProloguesStr (c + 2) qs
                  ++ infoStep c (infoKeysOf p0) p0) ++ ['\x7d']))
      ∧ occursB (infoResetStr key) pre = true
      ∧ infoStep c (infoKeysOf p0) p0
          = infoSubsts (infoKeysOf p0) (infoPrologue c (infoKeysOf p0) ++ p0) := by
  refine ⟨headerWrapOpen header (c + 2) ++ (fmtSplitStr (c + 1)
      ++ (sampleResetsStr qs ++ infoResetsStr (infoKeysOf p0))), ?_, ?_, ?_⟩
  · rw [buildPerline_eq header c p0 qs hq]
    simp [List.append_assoc]
  · exact occursB_append_l _ _ _ (occursB_append_l _ _ _ (occursB_append_l _ _ _
      (occursB_infoResets key _ hk)))
  · simp [infoStep, hI]

/-- Witness for C5 at the per-line body ` print I$AF ` and key `AF`. -/
theorem C5_reset_before_annot_scan_witness :
    ∃ pre : Str,
      buildPerline false 8 ((" print I$AF ").data)
        = .ok (pre ++ (renamePass [] (sampleProloguesStr (8 + 2) []
                  ++ infoStep 8 (infoKeysOf ((" print I$AF ").data))
                      ((" print I$AF ").data)) ++ ['\x7d']))
      ∧ occursB (infoResetStr (("AF").data)) pre = true
      ∧ infoStep 8 (infoKeysOf ((" print I$AF ").data)) ((" print I$AF ").data)
          = infoSubsts (infoKeysOf ((" print I$AF ").data))
              (infoPrologue 8 (infoKeysOf ((" print I$AF ").data))
                ++ ((" print I$AF ").data)) :=
  C5_reset_before_annot_scan false 8 ((" print I$AF ").data) (("AF").data) []
    (by decide) (by decide) (by decide)

/-- C10: when the scanner collects the empty annotation key (an `I$` sigil
followed immediately by a non-identifier character), code generation emits
a reset statement `INFO_="";` — present in the generated per-record code —
and a scan clause for the variable named exactly `INFO_`, with match
patterns built from the empty key (`x[i]~"^="` and `x[i]==""`), inside the
annotation prologue. -/
theorem C10_empty_key_codegen (header : Bool) (c : Nat) (p0 : Str)
    (qs : List SampleQ)
    (hk : ([] : Str) ∈ infoKeysOf p0)
    (hq : sampleInitAll (sampleToksOf (infoStep c (infoKeysOf p0) p0)) = .ok qs) :
    (∃ pre rest : Str, buildPerline header c p0 = .ok (pre ++ rest)
        ∧ occursB (("INFO_=\"\"; ").data) pre = true)
    ∧ occursB (infoScanClause []) (infoPrologue c (infoKeysOf p0)) = true
    ∧ infoScanClause []
        = ("if (x[i]~\"^=\" || x[i]==\"\") \x7b split(x[i],info,\"=\"); if (length(info)==1) \x7b INFO_=1\x7d else \x7bINFO_=info[2]\x7d \x7d").data := by
  refine ⟨⟨headerWrapOpen header (c + 2) ++ (fmtSplitStr (c + 1)
      ++ (sampleResetsStr qs ++ infoResetsStr (infoKeysOf p0))),
      renamePass qs (sampleProloguesStr (c + 2) qs
        ++ infoStep c (infoKeysOf p0) p0) ++ ['\x7d'], ?_, ?_⟩, ?_, ?_⟩
  · rw [buildPerline_eq header c p0 qs hq]
    simp [List.append_assoc]
  · have hres : (("INFO_=\"\"; ").data) = infoResetStr [] := by decide
    rw [hres]
    exact occursB_append_l _ _ _ (occursB_append_l _ _ _ (occursB_append_l _ _ _
      (occursB_infoResets [] _ hk)))
  · rw [infoPrologue]
    exact occursB_append_r _ _ _ (occursB_append_l _ _ _
      (occursB_joinSep (" ".data) (infoScanClause []) _
        (List.mem_map_of_mem infoScanClause hk)))
  · decide

/-- Witness for C10 at the per-line body ` print I$; `, whose `I$` sigil is
followed by the non-identifier `;`, so the scanner collects the empty
key. -/
theorem C10_empty_key_codegen_witness :
    (∃ pre rest : Str, buildPerline false 8 ((" print I$; ").data) = .ok (pre ++ rest)
        ∧ occursB (("INFO_=\"\"; ").data) pre = true)
    ∧ occursB (infoScanClause []) (infoPrologue 8 (infoKeysOf ((" print I$; ").data))) = true
    ∧ infoScanClause []
        = ("if (x[i]~\"^=\" || x[i]==\"\") \x7b split(x[i],info,\"=\"); if (length(info)==1) \x7b INFO_=1\x7d else \x7bINFO_=info[2]\x7d \x7d").data :=
  C10_empty_key_codegen false 8 ((" print I$; ").data) [] (by decide) (by decide)

/-- C7 counterexample: the claim lists the per-record block's contents as
"... all reset statements, the annotation prologue, the sample prologues,
the header-dispatch wrapper, and the user's perline text" — the annotation
prologue before the sample prologues.  In the assembled program for
`{ print I$AF, S$NA }` the annotation prologue (opening `split($8,x,";");`)
does NOT come before the sample prologue (`SAMPLE_NA_ALL=$SAMPLE[`): the
sample prologue's first occurrence precedes it. -/
theorem C7_cex :
    optLt (firstIdx (("split($8,x,\";\");").data) c7assembled)
          (firstIdx (("SAMPLE_NA_ALL=$SAMPLE[").data) c7assembled) = false
    ∧ optLt (firstIdx (("SAMPLE_NA_ALL=$SAMPLE[").data) c7assembled)
            (firstIdx (("split($8,x,\";\");").data) c7assembled) = true := by
  decide

/-- C7 (amended): the assembled program text is exactly the initialization
block (fixing `FS` and `OFS` to a tab, then the user's begin text), then a
per-record block made of — in this textual order — the header-dispatch
wrapper's opening, the keyed-subfield-order (FORMAT) split, the sample
resets, the annotation resets, the renamed region holding the sample
prologues followed by the annotation prologue (with reference
substitutions applied) and the user's perline text, and the wrapper's
closing brace; then the finalization block executing the user's end
text. -/
theorem C7_assembled_structure (header : Bool) (c : Nat) (bgn p0 fin : Str)
    (qs : List SampleQ)
    (hq : sampleInitAll (sampleToksOf (infoStep c (infoKeysOf p0) p0)) = .ok qs)
    (hI : hasInfoRef p0 = true) :
    vawkAssembleParts header c bgn p0 fin
      = .ok (beginBlockStr bgn ++ ((" \x7b").data)
          ++ headerWrapOpen header (c + 2) ++ fmtSplitStr (c + 1)
          ++ sampleResetsStr qs ++ infoResetsStr (infoKeysOf p0)
          ++ renamePass qs (sampleProloguesStr (c + 2) qs
               ++ infoSubsts (infoKeysOf p0) (infoPrologue c (infoKeysOf p0) ++ p0))
          ++ ['\x7d'] ++ (("\x7d ").data) ++ (("END \x7b").data) ++ fin ++ ['\x7d']) := by
  have hstep : infoStep c (infoKeysOf p0) p0
      = infoSubsts (infoKeysOf p0) (infoPrologue c (infoKeysOf p0) ++ p0) := by
    simp [infoStep, hI]
  simp only [vawkAssembleParts, buildPerline_eq header c p0 qs hq, hstep]
  simp [List.append_assoc]

/-- Witness for C7 (amended) on the body ` print I$AF ` (no sample
references, one annotation reference). -/
theorem C7_assembled_structure_witness :
    vawkAssembleParts false 8 [] ((" print I$AF ").data) []
      = .ok (beginBlockStr [] ++ ((" \x7b").data)
          ++ headerWrapOpen false (8 + 2) ++ fmtSplitStr (8 + 1)
          ++ sampleResetsStr [] ++ infoResetsStr (infoKeysOf ((" print I$AF ").data))
          ++ renamePass [] (sampleProloguesStr (8 + 2) []
               ++ infoSubsts (infoKeysOf ((" print I$AF ").data))
                    (infoPrologue 8 (infoKeysOf ((" print I$AF ").data))
                      ++ ((" print I$AF ").data)))
          ++ ['\x7d'] ++ (("\x7d ").data) ++ (("END \x7b").data) ++ [] ++ ['\x7d']) :=
  C7_assembled_structure false 8 [] ((" print I$AF ").data) [] []
    (by decide) (by decide)
